import Mathlib

/-!
Shallow embedding of `src/code/chapter-12/quick_jni_entrypoints.cc` (ART's
quick JNI entrypoints, with the ROM tracing additions).  Stateful C++ code is
modelled by explicit state passing over a `Thread` structure; fatal aborts
(`LOG(FATAL)`, CheckJNI aborts) are modelled with `Except`; each externally
observable action appends an `Event` to the thread's trace so ordering
properties can be stated.  External collaborators (the indirect-reference
decode, the monitor implementation's failure behaviour, the read-barrier
routine, the architecture-dependent float reinterpretation) enter as
parameters, exactly where the source calls out of this file.
-/

namespace RomJni

/-- Exception object identity (a `mirror::Throwable*`). -/
abbrev Exc := Nat

/-- A managed object pointer (`ObjPtr<mirror::Object>`); `none` is null. -/
abbrev ObjRef := Option Nat

/-- An opaque `jobject` handle; `none` is the null handle. -/
abbrev JObj := Option Nat

/-- Thread execution state: `Runnable` or suspended-for-native (`kNative`). -/
inductive TState where
  | Runnable
  | SuspendedNative
deriving DecidableEq, Repr

/-- Observable actions of the bridge, recorded in the thread's trace.
`monitorEnter` records the decoded lock object and the thread state at the
moment of entry. -/
inductive Event where
  | paletteNotifyEnd
  | paletteNotifyBegin
  | enterNative
  | exitNative
  | suspendCheck
  | pushScope
  | popLocalRefs
  | monitorEnter (o : ObjRef) (st : TState)
  | monitorExit (o : ObjRef)
  | decodeResult (h : JObj)
  | checkRefResult
deriving DecidableEq, Repr

/-- Runtime configuration read by the ROM tracing additions
(`Runtime::Current()->GetConfigItem()`) plus the palette's
`PaletteShouldReportJniInvocations` answer. -/
structure Config where
  isJNIMethodPrint : Bool
  jniFuncName : String
  jniEnable : Bool
  shouldReport : Bool
deriving DecidableEq, Repr

/-- The slice of `JNIEnvExt` the entrypoints touch: the local-reference
cookie, the locals segment state (both `IRTSegmentState`, i.e. `uint32_t`),
and the CheckJNI flag. -/
structure JniEnvExt where
  localRefCookie : Nat
  localsSegmentState : Nat
  checkJniEnabled : Bool
deriving DecidableEq, Repr

/-- Abort conditions (`LOG(FATAL)` / CheckJNI aborts). -/
inductive Fatal where
  | doubleException (first : Option Exc) (second : Exc)
  | heldMonitorsOnPop
  | badShorty (c : Char)
deriving DecidableEq, Repr

/-- The slice of `Thread` the entrypoints touch.  `decode` embeds
`Thread::DecodeJObject` (the indirect-reference-table lookup, external to
this file); `monitorExitRaises` embeds the monitor implementation's
behaviour: the exception `MonitorExit` raises on this thread, if any;
`topMethodName` is the pretty name of the method at the top quick frame,
read only by the tracing additions; `heldMonitors` counts monitors held
through the environment (checked by `CheckNoHeldMonitors`). -/
structure Thread where
  env : JniEnvExt
  state : TState
  pendingException : Option Exc
  suspendFlags : Bool
  heldMonitors : Nat
  decode : JObj → ObjRef
  monitorExitRaises : Option Exc
  topMethodName : String
  trace : List Event

/-- Append an observable action to the thread's trace. -/
def Thread.emit (t : Thread) (e : Event) : Thread :=
  { t with trace := t.trace ++ [e] }

/-- The calling-mode flags and return-type metadata of an `ArtMethod` that
`GenericJniMethodEnd` consumes.  `shorty0` is `GetShorty()[0]`;
`syncObject` is the handle `GetGenericJniSynchronizationObject` returns
(external accessor, see entrypoint_utils). -/
structure ArtMethod where
  isCriticalNative : Bool
  isFastNative : Bool
  isSynchronized : Bool
  shorty0 : Char
  syncObject : JObj
deriving DecidableEq, Repr

/-- The `jvalue` union: each field holds the value the native call stored,
of the corresponding JNI primitive type. -/
structure JValue where
  z : Nat
  b : Int
  c : Nat
  s : Int
  i : Int
  j : Int
  l : JObj
deriving DecidableEq, Repr

/-- Architecture parameters for `GenericJniMethodEnd`: whether
`kRuntimeISA == InstructionSet::kX86`, and the composite
`bit_cast<double,uint64_t>` / `static_cast<float>` / `bit_cast<uint32_t,float>`
narrowing, modelled as a function on the 64-bit payload's bit pattern. -/
structure Arch where
  isX86 : Bool
  narrowDoubleBitsToFloatBits : Nat → Nat

/-- Two's-complement reading of a signed `w`-bit union field. -/
def sextI (w : Nat) (x : Int) : Int :=
  (x + 2 ^ (w - 1)) % 2 ^ w - 2 ^ (w - 1)

/-- C++ integral conversion of a signed value to `uint64_t`. -/
def toU64 (x : Int) : Nat :=
  (x % (2 : Int) ^ 64).toNat

/-- `reinterpret_cast<uint64_t>` of a `mirror::Object*`; null is 0. -/
def objToU64 : ObjRef → Nat
  | none => 0
  | some p => p

/-- Does the first list occur at the head of the second? -/
def leadsWith : List Char → List Char → Bool
  | [], _ => true
  | _ :: _, [] => false
  | a :: as, b :: bs => a == b && leadsWith as bs

/-- `strstr` semantics: does `needle` occur anywhere in the second list? -/
def hasSub (needle : List Char) : List Char → Bool
  | [] => needle.isEmpty
  | c :: rest => leadsWith needle (c :: rest) || hasSub needle rest

/-- `strstr(hay, needle) != nullptr` on strings. -/
def strstrB (hay needle : String) : Bool :=
  hasSub needle.data hay.data

/-- The ROM tracing block at the top of `JniMethodStart`: when
`isJNIMethodPrint` is set and the method name matches the filter, log and
set `jniEnable` to true.  Only the configuration is mutated. -/
def JniTraceStart (cfg : Config) (self : Thread) : Config :=
  if cfg.isJNIMethodPrint then
    if strstrB self.topMethodName cfg.jniFuncName then
      { cfg with jniEnable := true }
    else cfg
  else cfg

/-- The ROM tracing block in `JniMethodEnd` and
`JniMethodEndWithReferenceHandleResult`: on a filter match, log and set
`jniEnable` to false. -/
def JniTraceEnd (cfg : Config) (self : Thread) : Config :=
  if cfg.isJNIMethodPrint then
    if strstrB self.topMethodName cfg.jniFuncName then
      { cfg with jniEnable := false }
    else cfg
  else cfg

/-- The `MONITOR_JNI(PaletteNotifyEndJniInvocation)` macro: asks the palette
whether to report and, if so, notifies the end hook. -/
def MonitorJniNotifyEnd (cfg : Config) (self : Thread) : Thread :=
  if cfg.shouldReport then self.emit .paletteNotifyEnd else self

/-- `GoToRunnable`: `TransitionFromSuspendedToRunnable` — reacquire the
shared mutator-lock hold and become `Runnable`. -/
def GoToRunnable (self : Thread) : Thread :=
  ({ self with state := .Runnable }).emit .exitNative

/-- `GoToRunnableFast`: already `Runnable`; only run a suspend check on the
way out of JNI if a thread-local flag is raised (`TestAllFlags` /
`CheckSuspend`). -/
def GoToRunnableFast (self : Thread) : Thread :=
  if self.suspendFlags then
    ({ self with suspendFlags := false }).emit .suspendCheck
  else self

/-- `PopLocalReferences`: with CheckJNI enabled, `CheckNoHeldMonitors` first
(abort if a monitor acquired through the table is still held); then restore
the locals segment state from the current cookie and the cookie from the
saved one. -/
def PopLocalReferences (saved_local_ref_cookie : Nat) (self : Thread) :
    Except (Fatal × Thread) Thread :=
  if self.env.checkJniEnabled && self.heldMonitors != 0 then
    .error (.heldMonitorsOnPop, self)
  else
    .ok (({ self with
      env := { self.env with
        localsSegmentState := self.env.localRefCookie,
        localRefCookie := saved_local_ref_cookie } }).emit .popLocalRefs)

/-- `DecodeJObject(locked)->MonitorExit(self)`: give up the monitor; the
monitor implementation may raise an exception, which becomes pending. -/
def MonitorExitOp (locked : JObj) (self : Thread) : Thread :=
  ({ self with
    heldMonitors := self.heldMonitors - 1,
    pendingException := self.monitorExitRaises }).emit
      (.monitorExit (self.decode locked))

/-- `UnlockJniSynchronizedMethod`: save and clear any pending exception,
unlock, die if the unlock itself raised, otherwise restore the saved
exception. -/
def UnlockJniSynchronizedMethod (locked : JObj) (self : Thread) :
    Except (Fatal × Thread) Thread :=
  let saved_exception := self.pendingException
  let t1 := { self with pendingException := none }
  let t2 := MonitorExitOp locked t1
  match t2.pendingException with
  | some e2 => .error (.doubleException saved_exception e2, t2)
  | none =>
    .ok (match saved_exception with
      | some e => { t2 with pendingException := some e }
      | none => t2)

/-- `JniMethodStart`: save the local-reference cookie and push a new scope,
run the ROM tracing block, then transition out of `Runnable`. -/
def JniMethodStart (cfg : Config) (self : Thread) : Nat × Config × Thread :=
  let saved_local_ref_cookie := self.env.localRefCookie
  let t1 := ({ self with
    env := { self.env with
      localRefCookie := self.env.localsSegmentState } }).emit .pushScope
  let cfg1 := JniTraceStart cfg t1
  let t2 := ({ t1 with state := .SuspendedNative }).emit .enterNative
  (saved_local_ref_cookie, cfg1, t2)

/-- `JniMethodFastStart`: push a new local reference scope only; no state
transition, no tracing block. -/
def JniMethodFastStart (self : Thread) : Nat × Thread :=
  let saved_local_ref_cookie := self.env.localRefCookie
  (saved_local_ref_cookie,
    ({ self with
      env := { self.env with
        localRefCookie := self.env.localsSegmentState } }).emit .pushScope)

/-- `DecodeJObject(to_lock)->MonitorEnter(self)`; the event records the
thread state at the moment of entry. -/
def MonitorEnterOp (to_lock : JObj) (self : Thread) : Thread :=
  ({ self with heldMonitors := self.heldMonitors + 1 }).emit
    (.monitorEnter (self.decode to_lock) self.state)

/-- `JniMethodStartSynchronized`: enter the monitor of the decoded lock
object, then do a plain `JniMethodStart`. -/
def JniMethodStartSynchronized (cfg : Config) (to_lock : JObj)
    (self : Thread) : Nat × Config × Thread :=
  JniMethodStart cfg (MonitorEnterOp to_lock self)

/-- `JniMethodEnd`: ROM tracing block, `GoToRunnable`, then
`PopLocalReferences`. -/
def JniMethodEnd (saved_local_ref_cookie : Nat) (cfg : Config)
    (self : Thread) : Except (Fatal × Thread) (Config × Thread) :=
  let cfg1 := JniTraceEnd cfg self
  let t1 := GoToRunnable self
  match PopLocalReferences saved_local_ref_cookie t1 with
  | .error e => .error e
  | .ok t2 => .ok (cfg1, t2)

/-- `JniMethodFastEnd`: `GoToRunnableFast`, then `PopLocalReferences`. -/
def JniMethodFastEnd (saved_local_ref_cookie : Nat) (self : Thread) :
    Except (Fatal × Thread) Thread :=
  PopLocalReferences saved_local_ref_cookie (GoToRunnableFast self)

/-- `JniMethodEndSynchronized`: `GoToRunnable`, unlock (must decode before
pop), then `PopLocalReferences`. -/
def JniMethodEndSynchronized (saved_local_ref_cookie : Nat) (locked : JObj)
    (self : Thread) : Except (Fatal × Thread) Thread :=
  match UnlockJniSynchronizedMethod locked (GoToRunnable self) with
  | .error e => .error e
  | .ok t1 => PopLocalReferences saved_local_ref_cookie t1

/-- `JniMethodEndWithReferenceHandleResult`: ROM tracing block; decode the
raw result handle only when no exception is pending (a default-constructed
null `ObjPtr` otherwise); pop local references; with CheckJNI enabled run
`CheckReferenceResult`; `VerifyObject`; return the decoded pointer. -/
def JniMethodEndWithReferenceHandleResult (result : JObj)
    (saved_local_ref_cookie : Nat) (cfg : Config) (self : Thread) :
    Except (Fatal × Thread) (ObjRef × Config × Thread) :=
  let cfg1 := JniTraceEnd cfg self
  let od : ObjRef × Thread :=
    if self.pendingException.isSome then (none, self)
    else (self.decode result, self.emit (.decodeResult result))
  match PopLocalReferences saved_local_ref_cookie od.2 with
  | .error e => .error e
  | .ok t2 =>
    let t3 := if t2.env.checkJniEnabled then t2.emit .checkRefResult else t2
    .ok (od.1, cfg1, t3)

/-- `GenericJniMethodEnd`: the epilogue dispatcher — calling-mode dependent
transition (with the palette end notification on the normal path), optional
synchronized unlock, then return-value marshalling by the shorty tag. -/
def GenericJniMethodEnd (arch : Arch) (cfg : Config) (self : Thread)
    (saved_local_ref_cookie : Nat) (result : JValue) (result_f : Nat)
    (called : ArtMethod) :
    Except (Fatal × Thread) (Nat × Config × Thread) :=
  let critical_native := called.isCriticalNative
  let fast_native := called.isFastNative
  let normal_native := !critical_native && !fast_native
  let t1 :=
    if normal_native then GoToRunnable (MonitorJniNotifyEnd cfg self)
    else if fast_native then GoToRunnableFast self
    else self
  let afterSync : Except (Fatal × Thread) Thread :=
    if called.isSynchronized then
      UnlockJniSynchronizedMethod called.syncObject t1
    else .ok t1
  match afterSync with
  | .error e => .error e
  | .ok t2 =>
    if called.shorty0 = 'L' then
      match JniMethodEndWithReferenceHandleResult result.l
          saved_local_ref_cookie cfg t2 with
      | .error e => .error e
      | .ok (o, cfg1, t3) => .ok (objToU64 o, cfg1, t3)
    else
      match
        (if !critical_native then
          PopLocalReferences saved_local_ref_cookie t2
        else .ok t2) with
      | .error e => .error e
      | .ok t3 =>
        match called.shorty0 with
        | 'F' =>
          if arch.isX86 then
            .ok ((arch.narrowDoubleBitsToFloatBits result_f) % 2 ^ 32,
              cfg, t3)
          else
            .ok (result_f, cfg, t3)
        | 'D' => .ok (result_f, cfg, t3)
        | 'Z' => .ok (result.z % 2 ^ 8, cfg, t3)
        | 'B' => .ok (toU64 (sextI 8 result.b), cfg, t3)
        | 'C' => .ok (result.c % 2 ^ 16, cfg, t3)
        | 'S' => .ok (toU64 (sextI 16 result.s), cfg, t3)
        | 'I' => .ok (toU64 (sextI 32 result.i), cfg, t3)
        | 'J' => .ok (toU64 (sextI 64 result.j), cfg, t3)
        | 'V' => .ok (0, cfg, t3)
        | c => .error (.badShorty c, t3)

/-- `ReadBarrierJni`: under the Baker read barrier, a set mark bit means the
referent is not subject to movement and the call is a no-op; otherwise the
general barrier routine runs and its possibly-forwarded result overwrites
the root.  `markBit` and `barrierForRoot` are the external collaborators;
the root referent is non-null by contract (DCHECK). -/
def ReadBarrierJni (useBakerReadBarrier : Bool) (markBit : Nat → Bool)
    (barrierForRoot : Nat → Nat) (declaring_class : Nat) : Nat :=
  if useBakerReadBarrier && markBit declaring_class then
    declaring_class
  else
    barrierForRoot declaring_class

/-- The thread after an operation, whether it completed or aborted. -/
def outThread1 : Except (Fatal × Thread) Thread → Thread
  | .error (_, t) => t
  | .ok t => t

/-- The thread after a reference-returning end, completed or aborted. -/
def outThread3 : Except (Fatal × Thread) (ObjRef × Config × Thread) → Thread
  | .error (_, t) => t
  | .ok (_, _, t) => t

/-- The thread after the generic epilogue, completed or aborted. -/
def outThreadG : Except (Fatal × Thread) (Nat × Config × Thread) → Thread
  | .error (_, t) => t
  | .ok (_, _, t) => t

/-- Forget the configuration component of `JniMethodEnd`'s result. -/
def stripCT : Except (Fatal × Thread) (Config × Thread) →
    Except (Fatal × Thread) Thread
  | .error e => .error e
  | .ok (_, t) => .ok t

/-- Forget the configuration component of a reference-returning end. -/
def stripRef : Except (Fatal × Thread) (ObjRef × Config × Thread) →
    Except (Fatal × Thread) (ObjRef × Thread)
  | .error e => .error e
  | .ok (o, _, t) => .ok (o, t)

/-- Forget the configuration component of the generic epilogue's result. -/
def stripGen : Except (Fatal × Thread) (Nat × Config × Thread) →
    Except (Fatal × Thread) (Nat × Thread)
  | .error e => .error e
  | .ok (v, _, t) => .ok (v, t)

/-- Events of steps 1-3 of the epilogue: the palette end notification, the
Exit-native transition, the fast-path suspend check, and the monitor
release. -/
def isStepEvent : Event → Bool
  | .paletteNotifyEnd => true
  | .exitNative => true
  | .suspendCheck => true
  | .monitorExit _ => true
  | _ => false

/-- A reference-scope pop. -/
def isPopEvent : Event → Bool
  | .popLocalRefs => true
  | _ => false

/-- A thread-state transition (either direction). -/
def isTransitionEvent : Event → Bool
  | .enterNative => true
  | .exitNative => true
  | _ => false

/-- A cooperative suspend check. -/
def isSuspendEvent : Event → Bool
  | .suspendCheck => true
  | _ => false

/-- A decode of a raw returned handle. -/
def isDecodeEvent : Event → Bool
  | .decodeResult _ => true
  | _ => false

/-- Scope / result bookkeeping events of step 4 of the epilogue. -/
def isScopeEvent : Event → Bool
  | .popLocalRefs => true
  | .decodeResult _ => true
  | .checkRefResult => true
  | _ => false

/-- A concrete `DecodeJObject`: the handle with identity `n` resolves to
the object with identity `n`. -/
def decode0 : JObj → ObjRef := fun h => h

/-- A concrete quiescent thread used to instantiate theorems. -/
def t0 : Thread where
  env := { localRefCookie := 7, localsSegmentState := 9,
           checkJniEnabled := false }
  state := .Runnable
  pendingException := none
  suspendFlags := false
  heldMonitors := 0
  decode := decode0
  monitorExitRaises := none
  topMethodName := "void Foo.bar()"
  trace := []

/-- A thread whose `MonitorExit` raises exception 5 while exception 4 is
already pending. -/
def tRaise : Thread :=
  { t0 with monitorExitRaises := some 5, pendingException := some 4,
            heldMonitors := 1 }

/-- A thread with a raised thread-local suspend flag. -/
def tFlag : Thread := { t0 with suspendFlags := true }

/-- A thread with a pending exception and no monitor trouble. -/
def tExc : Thread := { t0 with pendingException := some 4 }

/-- A concrete tracing-off configuration. -/
def cfg0 : Config where
  isJNIMethodPrint := false
  jniFuncName := ""
  jniEnable := false
  shouldReport := false

/-- A concrete non-x86 architecture; the narrowing function is irrelevant
there. -/
def arch0 : Arch where
  isX86 := false
  narrowDoubleBitsToFloatBits := fun _ => 0

/-- A concrete x86 architecture with an arbitrary concrete narrowing. -/
def arch1 : Arch where
  isX86 := true
  narrowDoubleBitsToFloatBits := fun n => n + 3

/-- A concrete `jvalue`. -/
def jv0 : JValue where
  z := 1
  b := -2
  c := 3
  s := -4
  i := 5
  j := -6
  l := some 11

/-- A critical-native method with a long return. -/
def mCritJ : ArtMethod :=
  ⟨true, false, false, 'J', none⟩

/-- A critical-native method with a reference return. -/
def mCritL : ArtMethod :=
  ⟨true, false, false, 'L', none⟩

/-- A fast-native method with a 32-bit float return. -/
def mFastF : ArtMethod :=
  ⟨false, true, false, 'F', none⟩

/-- A fast-native method with an int return. -/
def mFastI : ArtMethod :=
  ⟨false, true, false, 'I', none⟩

/-- A normal-native method with a void return. -/
def mNormV : ArtMethod :=
  ⟨false, false, false, 'V', none⟩

/-- The calling-mode-dependent transition at the top of
`GenericJniMethodEnd` (its `t1`): palette end notification and Exit-native
for normal natives, the fast-path suspend check for fast natives, nothing
for critical natives. -/
def modeThread (cfg : Config) (m : ArtMethod) (self : Thread) : Thread :=
  if !m.isCriticalNative && !m.isFastNative then
    GoToRunnable (MonitorJniNotifyEnd cfg self)
  else if m.isFastNative then GoToRunnableFast self
  else self

/-- The return-value marshalling tail of `GenericJniMethodEnd` (from the
`return_shorty_char` read on): reference results go through the
reference-handle path, primitive results pop the scope unless critical and
switch on the tag. -/
def step4 (arch : Arch) (cfg : Config) (sv : Nat) (res : JValue)
    (result_f : Nat) (m : ArtMethod) (t2 : Thread) :
    Except (Fatal × Thread) (Nat × Config × Thread) :=
  if m.shorty0 = 'L' then
    match JniMethodEndWithReferenceHandleResult res.l sv cfg t2 with
    | .error e => .error e
    | .ok (o, cfg1, t3) => .ok (objToU64 o, cfg1, t3)
  else
    match
      (if !m.isCriticalNative then PopLocalReferences sv t2
        else .ok t2) with
    | .error e => .error e
    | .ok t3 =>
      match m.shorty0 with
      | 'F' =>
        if arch.isX86 then
          .ok ((arch.narrowDoubleBitsToFloatBits result_f) % 2 ^ 32,
            cfg, t3)
        else
          .ok (result_f, cfg, t3)
      | 'D' => .ok (result_f, cfg, t3)
      | 'Z' => .ok (res.z % 2 ^ 8, cfg, t3)
      | 'B' => .ok (toU64 (sextI 8 res.b), cfg, t3)
      | 'C' => .ok (res.c % 2 ^ 16, cfg, t3)
      | 'S' => .ok (toU64 (sextI 16 res.s), cfg, t3)
      | 'I' => .ok (toU64 (sextI 32 res.i), cfg, t3)
      | 'J' => .ok (toU64 (sextI 64 res.j), cfg, t3)
      | 'V' => .ok (0, cfg, t3)
      | c => .error (.badShorty c, t3)

@[simp]
theorem emit_trace (t : Thread) (e : Event) :
    (t.emit e).trace = t.trace ++ [e] := rfl

@[simp]
theorem emit_state (t : Thread) (e : Event) :
    (t.emit e).state = t.state := rfl

@[simp]
theorem emit_env (t : Thread) (e : Event) :
    (t.emit e).env = t.env := rfl

@[simp]
theorem emit_pendingException (t : Thread) (e : Event) :
    (t.emit e).pendingException = t.pendingException := rfl

@[simp]
theorem emit_heldMonitors (t : Thread) (e : Event) :
    (t.emit e).heldMonitors = t.heldMonitors := rfl

@[simp]
theorem emit_decode (t : Thread) (e : Event) :
    (t.emit e).decode = t.decode := rfl

@[simp]
theorem emit_suspendFlags (t : Thread) (e : Event) :
    (t.emit e).suspendFlags = t.suspendFlags := rfl

@[simp]
theorem emit_monitorExitRaises (t : Thread) (e : Event) :
    (t.emit e).monitorExitRaises = t.monitorExitRaises := rfl

@[simp]
theorem GoToRunnable_trace (t : Thread) :
    (GoToRunnable t).trace = t.trace ++ [.exitNative] := rfl

@[simp]
theorem GoToRunnable_state (t : Thread) :
    (GoToRunnable t).state = .Runnable := rfl

@[simp]
theorem GoToRunnable_env (t : Thread) :
    (GoToRunnable t).env = t.env := rfl

@[simp]
theorem GoToRunnable_pendingException (t : Thread) :
    (GoToRunnable t).pendingException = t.pendingException := rfl

@[simp]
theorem GoToRunnable_heldMonitors (t : Thread) :
    (GoToRunnable t).heldMonitors = t.heldMonitors := rfl

@[simp]
theorem GoToRunnable_decode (t : Thread) :
    (GoToRunnable t).decode = t.decode := rfl

@[simp]
theorem GoToRunnable_suspendFlags (t : Thread) :
    (GoToRunnable t).suspendFlags = t.suspendFlags := rfl

@[simp]
theorem GoToRunnable_monitorExitRaises (t : Thread) :
    (GoToRunnable t).monitorExitRaises = t.monitorExitRaises := rfl

@[simp]
theorem GoToRunnableFast_trace (t : Thread) :
    (GoToRunnableFast t).trace =
      t.trace ++ (if t.suspendFlags then [.suspendCheck] else []) := by
  unfold GoToRunnableFast
  split <;> simp

@[simp]
theorem GoToRunnableFast_state (t : Thread) :
    (GoToRunnableFast t).state = t.state := by
  unfold GoToRunnableFast
  split <;> rfl

@[simp]
theorem GoToRunnableFast_env (t : Thread) :
    (GoToRunnableFast t).env = t.env := by
  unfold GoToRunnableFast
  split <;> rfl

@[simp]
theorem GoToRunnableFast_pendingException (t : Thread) :
    (GoToRunnableFast t).pendingException = t.pendingException := by
  unfold GoToRunnableFast
  split <;> rfl

@[simp]
theorem GoToRunnableFast_heldMonitors (t : Thread) :
    (GoToRunnableFast t).heldMonitors = t.heldMonitors := by
  unfold GoToRunnableFast
  split <;> rfl

@[simp]
theorem GoToRunnableFast_decode (t : Thread) :
    (GoToRunnableFast t).decode = t.decode := by
  unfold GoToRunnableFast
  split <;> rfl

@[simp]
theorem GoToRunnableFast_monitorExitRaises (t : Thread) :
    (GoToRunnableFast t).monitorExitRaises = t.monitorExitRaises := by
  unfold GoToRunnableFast
  split <;> rfl

@[simp]
theorem MonitorJniNotifyEnd_trace (cfg : Config) (t : Thread) :
    (MonitorJniNotifyEnd cfg t).trace =
      t.trace ++ (if cfg.shouldReport then [.paletteNotifyEnd] else []) := by
  unfold MonitorJniNotifyEnd
  split <;> simp

@[simp]
theorem MonitorJniNotifyEnd_state (cfg : Config) (t : Thread) :
    (MonitorJniNotifyEnd cfg t).state = t.state := by
  unfold MonitorJniNotifyEnd
  split <;> rfl

@[simp]
theorem MonitorJniNotifyEnd_env (cfg : Config) (t : Thread) :
    (MonitorJniNotifyEnd cfg t).env = t.env := by
  unfold MonitorJniNotifyEnd
  split <;> rfl

@[simp]
theorem MonitorJniNotifyEnd_pendingException (cfg : Config) (t : Thread) :
    (MonitorJniNotifyEnd cfg t).pendingException = t.pendingException := by
  unfold MonitorJniNotifyEnd
  split <;> rfl

@[simp]
theorem MonitorJniNotifyEnd_heldMonitors (cfg : Config) (t : Thread) :
    (MonitorJniNotifyEnd cfg t).heldMonitors = t.heldMonitors := by
  unfold MonitorJniNotifyEnd
  split <;> rfl

@[simp]
theorem MonitorJniNotifyEnd_decode (cfg : Config) (t : Thread) :
    (MonitorJniNotifyEnd cfg t).decode = t.decode := by
  unfold MonitorJniNotifyEnd
  split <;> rfl

@[simp]
theorem MonitorJniNotifyEnd_suspendFlags (cfg : Config) (t : Thread) :
    (MonitorJniNotifyEnd cfg t).suspendFlags = t.suspendFlags := by
  unfold MonitorJniNotifyEnd
  split <;> rfl

@[simp]
theorem MonitorJniNotifyEnd_monitorExitRaises (cfg : Config) (t : Thread) :
    (MonitorJniNotifyEnd cfg t).monitorExitRaises = t.monitorExitRaises := by
  unfold MonitorJniNotifyEnd
  split <;> rfl

theorem PopLocalReferences_ok (sv : Nat) (t t2 : Thread)
    (h : PopLocalReferences sv t = .ok t2) :
    t2.trace = t.trace ++ [.popLocalRefs] ∧
    t2.state = t.state ∧
    t2.pendingException = t.pendingException ∧
    t2.heldMonitors = t.heldMonitors ∧
    t2.decode = t.decode ∧
    t2.suspendFlags = t.suspendFlags ∧
    t2.monitorExitRaises = t.monitorExitRaises ∧
    t2.env.checkJniEnabled = t.env.checkJniEnabled ∧
    t2.env.localRefCookie = sv ∧
    t2.env.localsSegmentState = t.env.localRefCookie := by
  unfold PopLocalReferences at h
  split at h
  · exact absurd h (by simp)
  · simp only [Except.ok.injEq] at h
    subst h
    simp [Thread.emit]

theorem PopLocalReferences_error (sv : Nat) (t t2 : Thread) (f : Fatal)
    (h : PopLocalReferences sv t = .error (f, t2)) :
    f = .heldMonitorsOnPop ∧ t2 = t := by
  unfold PopLocalReferences at h
  split at h
  · simp only [Except.error.injEq, Prod.mk.injEq] at h
    exact ⟨h.1.symm, h.2.symm⟩
  · exact absurd h (by simp)

theorem UnlockJniSynchronizedMethod_ok (l : JObj) (t t2 : Thread)
    (h : UnlockJniSynchronizedMethod l t = .ok t2) :
    t.monitorExitRaises = none ∧
    t2.trace = t.trace ++ [.monitorExit (t.decode l)] ∧
    t2.state = t.state ∧
    t2.pendingException = t.pendingException ∧
    t2.heldMonitors = t.heldMonitors - 1 ∧
    t2.decode = t.decode ∧
    t2.env = t.env ∧
    t2.suspendFlags = t.suspendFlags ∧
    t2.monitorExitRaises = t.monitorExitRaises := by
  unfold UnlockJniSynchronizedMethod MonitorExitOp Thread.emit at h
  cases hr : t.monitorExitRaises with
  | some e2 => simp [hr] at h
  | none =>
    simp only [hr] at h
    cases hp : t.pendingException with
    | some e =>
      simp only [hp, Except.ok.injEq] at h
      subst h
      simp [hp, hr]
    | none =>
      simp only [hp, Except.ok.injEq] at h
      subst h
      simp [hp, hr]

theorem UnlockJniSynchronizedMethod_error (l : JObj) (t t2 : Thread)
    (f : Fatal) (h : UnlockJniSynchronizedMethod l t = .error (f, t2)) :
    ∃ e2, t.monitorExitRaises = some e2 ∧
      f = .doubleException t.pendingException e2 ∧
      t2.trace = t.trace ++ [.monitorExit (t.decode l)] ∧
      t2.state = t.state ∧
      t2.heldMonitors = t.heldMonitors - 1 ∧
      t2.decode = t.decode ∧
      t2.env = t.env := by
  unfold UnlockJniSynchronizedMethod MonitorExitOp Thread.emit at h
  cases hr : t.monitorExitRaises with
  | some e2 =>
    simp only [hr, Except.error.injEq, Prod.mk.injEq] at h
    refine ⟨e2, rfl, h.1.symm, ?_⟩
    rw [← h.2]
    simp
  | none =>
    rw [hr] at h
    cases hp : t.pendingException <;> simp [hp] at h

theorem JniMethodEndWithReferenceHandleResult_ok (r : JObj) (sv : Nat)
    (cfg : Config) (t : Thread) (o : ObjRef) (cfg1 : Config) (t2 : Thread)
    (h : JniMethodEndWithReferenceHandleResult r sv cfg t =
      .ok (o, cfg1, t2)) :
    o = (if t.pendingException.isSome then none else t.decode r) ∧
    t2.trace = t.trace ++
      ((if t.pendingException.isSome then ([] : List Event)
          else [Event.decodeResult r]) ++
        [Event.popLocalRefs] ++
        (if t.env.checkJniEnabled then [Event.checkRefResult] else [])) ∧
    t2.state = t.state ∧
    t2.pendingException = t.pendingException ∧
    t2.heldMonitors = t.heldMonitors ∧
    t2.decode = t.decode ∧
    t2.suspendFlags = t.suspendFlags ∧
    t2.env.localRefCookie = sv ∧
    cfg1 = JniTraceEnd cfg t := by
  unfold JniMethodEndWithReferenceHandleResult at h
  cases hb : t.pendingException.isSome with
  | false =>
    simp only [hb, Bool.false_eq_true, if_false] at h
    cases hpp : PopLocalReferences sv (t.emit (.decodeResult r)) with
    | error e =>
      rw [hpp] at h
      simp at h
    | ok tp =>
      rw [hpp] at h
      simp only [Except.ok.injEq, Prod.mk.injEq] at h
      obtain ⟨ho, hcfg, ht3⟩ := h
      obtain ⟨htr, hst, hpe, hhm, hdec, hsf, hmx, hcj, hck, hseg⟩ :=
        PopLocalReferences_ok _ _ _ hpp
      cases hc : t.env.checkJniEnabled with
      | false =>
        simp only [hcj, emit_env, hc, Bool.false_eq_true, if_false] at ht3
        subst ht3
        simp [htr, hst, hpe, hhm, hdec, hsf, hck, hb, hc, ← ho, ← hcfg,
          List.append_assoc]
      | true =>
        simp only [hcj, emit_env, hc, if_true] at ht3
        subst ht3
        simp [htr, hst, hpe, hhm, hdec, hsf, hck, hb, hc, ← ho, ← hcfg,
          List.append_assoc]
  | true =>
    simp only [hb, if_true] at h
    cases hpp : PopLocalReferences sv t with
    | error e =>
      rw [hpp] at h
      simp at h
    | ok tp =>
      rw [hpp] at h
      simp only [Except.ok.injEq, Prod.mk.injEq] at h
      obtain ⟨ho, hcfg, ht3⟩ := h
      obtain ⟨htr, hst, hpe, hhm, hdec, hsf, hmx, hcj, hck, hseg⟩ :=
        PopLocalReferences_ok _ _ _ hpp
      cases hc : t.env.checkJniEnabled with
      | false =>
        simp only [hcj, hc, Bool.false_eq_true, if_false] at ht3
        subst ht3
        simp [htr, hst, hpe, hhm, hdec, hsf, hck, hb, hc, ← ho, ← hcfg,
          List.append_assoc]
      | true =>
        simp only [hcj, hc, if_true] at ht3
        subst ht3
        simp [htr, hst, hpe, hhm, hdec, hsf, hck, hb, hc, ← ho, ← hcfg,
          List.append_assoc]

theorem JniMethodEndWithReferenceHandleResult_error (r : JObj) (sv : Nat)
    (cfg : Config) (t te : Thread) (f : Fatal)
    (h : JniMethodEndWithReferenceHandleResult r sv cfg t =
      .error (f, te)) :
    te.trace = t.trace ++
      (if t.pendingException.isSome then ([] : List Event)
        else [Event.decodeResult r]) ∧
    te.state = t.state := by
  unfold JniMethodEndWithReferenceHandleResult at h
  cases hb : t.pendingException.isSome with
  | false =>
    simp only [hb, Bool.false_eq_true, if_false] at h
    cases hpp : PopLocalReferences sv (t.emit (.decodeResult r)) with
    | error e =>
      rw [hpp] at h
      simp only [Except.error.injEq] at h
      obtain ⟨hf, hte⟩ :=
        PopLocalReferences_error _ _ _ _ (h ▸ hpp)
      subst hte
      simp [hb]
    | ok tp =>
      rw [hpp] at h
      simp at h
  | true =>
    simp only [hb, if_true] at h
    cases hpp : PopLocalReferences sv t with
    | error e =>
      rw [hpp] at h
      simp only [Except.error.injEq] at h
      obtain ⟨hf, hte⟩ :=
        PopLocalReferences_error _ _ _ _ (h ▸ hpp)
      subst hte
      simp [hb]
    | ok tp =>
      rw [hpp] at h
      simp at h

/-- C8: for every non-null root class reference passed to the root barrier
under the Baker read barrier, a set mark bit leaves the root unchanged
(no-op), and otherwise the general barrier routine is invoked and its
possibly-forwarded result overwrites the root in place. -/
theorem ReadBarrierJni_mark_bit_spec (markBit : Nat → Bool)
    (barrierForRoot : Nat → Nat) (declaring_class : Nat) :
    ReadBarrierJni true markBit barrierForRoot declaring_class =
      if markBit declaring_class then declaring_class
      else barrierForRoot declaring_class := by
  unfold ReadBarrierJni
  cases h : markBit declaring_class <;> simp [h]

/-- C2: for every synchronized-call End, a pending exception E1 is saved
and cleared before the monitor release; if the release raises E2 the
process terminates reporting both E1 and E2; otherwise E1 is restored as
the pending exception, the monitor having been released exactly once. -/
theorem UnlockJniSynchronizedMethod_exception_protocol (l : JObj)
    (t : Thread) :
    (∀ e2, t.monitorExitRaises = some e2 →
      ∃ t2, UnlockJniSynchronizedMethod l t =
          .error (.doubleException t.pendingException e2, t2) ∧
        t2.trace = t.trace ++ [.monitorExit (t.decode l)]) ∧
    (t.monitorExitRaises = none →
      ∃ t2, UnlockJniSynchronizedMethod l t = .ok t2 ∧
        t2.pendingException = t.pendingException ∧
        t2.trace = t.trace ++ [.monitorExit (t.decode l)]) := by
  constructor
  · intro e2 hr
    cases hu : UnlockJniSynchronizedMethod l t with
    | ok t2 =>
      obtain ⟨hnone, _⟩ := UnlockJniSynchronizedMethod_ok _ _ _ hu
      rw [hr] at hnone
      exact absurd hnone (by simp)
    | error e =>
      obtain ⟨f, t2⟩ := e
      obtain ⟨e2x, hrx, hf, htr, _⟩ :=
        UnlockJniSynchronizedMethod_error _ _ _ _ hu
      rw [hr] at hrx
      injection hrx with he
      subst he
      subst hf
      exact ⟨t2, rfl, htr⟩
  · intro hr
    cases hu : UnlockJniSynchronizedMethod l t with
    | error e =>
      obtain ⟨f, t2⟩ := e
      obtain ⟨e2x, hrx, _⟩ := UnlockJniSynchronizedMethod_error _ _ _ _ hu
      rw [hr] at hrx
      exact absurd hrx (by simp)
    | ok t2 =>
      obtain ⟨_, htr, _, hpe, _⟩ := UnlockJniSynchronizedMethod_ok _ _ _ hu
      exact ⟨t2, rfl, hpe, htr⟩

/-- C2 witness: the protocol at a thread whose release raises 5 over
pending 4, and at a thread with pending 4 and a clean release. -/
theorem UnlockJniSynchronizedMethod_exception_protocol_witness :
    (∃ t2, UnlockJniSynchronizedMethod (some 3) tRaise =
        .error (.doubleException tRaise.pendingException 5, t2) ∧
      t2.trace = tRaise.trace ++ [.monitorExit (tRaise.decode (some 3))]) ∧
    (∃ t2, UnlockJniSynchronizedMethod (some 3) tExc = .ok t2 ∧
      t2.pendingException = tExc.pendingException ∧
      t2.trace = tExc.trace ++ [.monitorExit (tExc.decode (some 3))]) :=
  ⟨(UnlockJniSynchronizedMethod_exception_protocol (some 3) tRaise).1 5 rfl,
   (UnlockJniSynchronizedMethod_exception_protocol (some 3) tExc).2 rfl⟩

/-- C3: for every reference-returning End that completes, a pending
exception forces a null returned reference without decoding the raw
handle; with no exception pending the returned reference is the decoding
of the raw handle. -/
theorem JniMethodEndWithReference_decode_spec (r : JObj) (sv : Nat)
    (cfg : Config) (t : Thread) (o : ObjRef) (cfg1 : Config) (t2 : Thread)
    (h : JniMethodEndWithReferenceHandleResult r sv cfg t =
      .ok (o, cfg1, t2)) :
    (t.pendingException.isSome = true →
      o = none ∧
        t2.trace.countP isDecodeEvent = t.trace.countP isDecodeEvent) ∧
    (t.pendingException = none → o = t.decode r) := by
  obtain ⟨ho, htr, _⟩ :=
    JniMethodEndWithReferenceHandleResult_ok _ _ _ _ _ _ _ h
  constructor
  · intro hp
    refine ⟨by simp [ho, hp], ?_⟩
    rw [htr]
    cases hc : t.env.checkJniEnabled <;>
      simp [hp, hc, List.countP_append, List.countP_cons, isDecodeEvent]
  · intro hp
    simp [ho, hp]

theorem PopLocalReferences_ok_env (sv : Nat) (t t2 : Thread)
    (h : PopLocalReferences sv t = .ok t2) :
    t2.env = { localRefCookie := sv,
               localsSegmentState := t.env.localRefCookie,
               checkJniEnabled := t.env.checkJniEnabled } := by
  unfold PopLocalReferences at h
  split at h
  · exact absurd h (by simp)
  · simp only [Except.ok.injEq] at h
    subst h
    rfl

theorem PopLocalReferences_error_guard (sv : Nat) (t : Thread)
    (e : Fatal × Thread) (h : PopLocalReferences sv t = .error e) :
    (t.env.checkJniEnabled && t.heldMonitors != 0) = true := by
  unfold PopLocalReferences at h
  split at h
  · assumption
  · exact absurd h (by simp)

@[simp]
theorem JniMethodStart_cookie (cfg : Config) (t : Thread) :
    (JniMethodStart cfg t).1 = t.env.localRefCookie := rfl

@[simp]
theorem JniMethodStart_thread_state (cfg : Config) (t : Thread) :
    ((JniMethodStart cfg t).2.2).state = .SuspendedNative := rfl

@[simp]
theorem JniMethodStart_thread_env (cfg : Config) (t : Thread) :
    ((JniMethodStart cfg t).2.2).env =
      { localRefCookie := t.env.localsSegmentState,
        localsSegmentState := t.env.localsSegmentState,
        checkJniEnabled := t.env.checkJniEnabled } := rfl

@[simp]
theorem JniMethodStart_thread_heldMonitors (cfg : Config) (t : Thread) :
    ((JniMethodStart cfg t).2.2).heldMonitors = t.heldMonitors := rfl

@[simp]
theorem JniMethodStart_thread_pendingException (cfg : Config) (t : Thread) :
    ((JniMethodStart cfg t).2.2).pendingException = t.pendingException := rfl

@[simp]
theorem JniMethodStart_thread_decode (cfg : Config) (t : Thread) :
    ((JniMethodStart cfg t).2.2).decode = t.decode := rfl

@[simp]
theorem JniMethodStart_thread_suspendFlags (cfg : Config) (t : Thread) :
    ((JniMethodStart cfg t).2.2).suspendFlags = t.suspendFlags := rfl

@[simp]
theorem JniMethodStart_thread_monitorExitRaises (cfg : Config)
    (t : Thread) :
    ((JniMethodStart cfg t).2.2).monitorExitRaises =
      t.monitorExitRaises := rfl

@[simp]
theorem JniMethodStart_thread_trace (cfg : Config) (t : Thread) :
    ((JniMethodStart cfg t).2.2).trace =
      t.trace ++ [.pushScope, .enterNative] := by
  show (t.trace ++ [Event.pushScope]) ++ [Event.enterNative] = _
  simp

@[simp]
theorem JniMethodFastStart_cookie (t : Thread) :
    (JniMethodFastStart t).1 = t.env.localRefCookie := rfl

@[simp]
theorem JniMethodFastStart_thread_state (t : Thread) :
    ((JniMethodFastStart t).2).state = t.state := rfl

@[simp]
theorem JniMethodFastStart_thread_env (t : Thread) :
    ((JniMethodFastStart t).2).env =
      { localRefCookie := t.env.localsSegmentState,
        localsSegmentState := t.env.localsSegmentState,
        checkJniEnabled := t.env.checkJniEnabled } := rfl

@[simp]
theorem JniMethodFastStart_thread_heldMonitors (t : Thread) :
    ((JniMethodFastStart t).2).heldMonitors = t.heldMonitors := rfl

@[simp]
theorem JniMethodFastStart_thread_pendingException (t : Thread) :
    ((JniMethodFastStart t).2).pendingException = t.pendingException := rfl

@[simp]
theorem JniMethodFastStart_thread_decode (t : Thread) :
    ((JniMethodFastStart t).2).decode = t.decode := rfl

@[simp]
theorem JniMethodFastStart_thread_suspendFlags (t : Thread) :
    ((JniMethodFastStart t).2).suspendFlags = t.suspendFlags := rfl

@[simp]
theorem JniMethodFastStart_thread_monitorExitRaises (t : Thread) :
    ((JniMethodFastStart t).2).monitorExitRaises = t.monitorExitRaises := rfl

@[simp]
theorem JniMethodFastStart_thread_trace (t : Thread) :
    ((JniMethodFastStart t).2).trace = t.trace ++ [.pushScope] := rfl

@[simp]
theorem JniMethodStartSynchronized_cookie (cfg : Config) (to_lock : JObj)
    (t : Thread) :
    (JniMethodStartSynchronized cfg to_lock t).1 =
      t.env.localRefCookie := rfl

@[simp]
theorem JniMethodStartSynchronized_thread_state (cfg : Config)
    (to_lock : JObj) (t : Thread) :
    ((JniMethodStartSynchronized cfg to_lock t).2.2).state =
      .SuspendedNative := rfl

@[simp]
theorem JniMethodStartSynchronized_thread_env (cfg : Config)
    (to_lock : JObj) (t : Thread) :
    ((JniMethodStartSynchronized cfg to_lock t).2.2).env =
      { localRefCookie := t.env.localsSegmentState,
        localsSegmentState := t.env.localsSegmentState,
        checkJniEnabled := t.env.checkJniEnabled } := rfl

@[simp]
theorem JniMethodStartSynchronized_thread_heldMonitors (cfg : Config)
    (to_lock : JObj) (t : Thread) :
    ((JniMethodStartSynchronized cfg to_lock t).2.2).heldMonitors =
      t.heldMonitors + 1 := rfl

@[simp]
theorem JniMethodStartSynchronized_thread_pendingException (cfg : Config)
    (to_lock : JObj) (t : Thread) :
    ((JniMethodStartSynchronized cfg to_lock t).2.2).pendingException =
      t.pendingException := rfl

@[simp]
theorem JniMethodStartSynchronized_thread_decode (cfg : Config)
    (to_lock : JObj) (t : Thread) :
    ((JniMethodStartSynchronized cfg to_lock t).2.2).decode = t.decode := rfl

@[simp]
theorem JniMethodStartSynchronized_thread_suspendFlags (cfg : Config)
    (to_lock : JObj) (t : Thread) :
    ((JniMethodStartSynchronized cfg to_lock t).2.2).suspendFlags =
      t.suspendFlags := rfl

@[simp]
theorem JniMethodStartSynchronized_thread_monitorExitRaises (cfg : Config)
    (to_lock : JObj) (t : Thread) :
    ((JniMethodStartSynchronized cfg to_lock t).2.2).monitorExitRaises =
      t.monitorExitRaises := rfl

@[simp]
theorem JniMethodStartSynchronized_thread_trace (cfg : Config)
    (to_lock : JObj) (t : Thread) :
    ((JniMethodStartSynchronized cfg to_lock t).2.2).trace =
      t.trace ++ [.monitorEnter (t.decode to_lock) t.state, .pushScope,
        .enterNative] := by
  show ((t.trace ++ [Event.monitorEnter (t.decode to_lock) t.state]) ++
      [Event.pushScope]) ++ [Event.enterNative] = _
  simp

/-- C3 witness: with exception 4 pending, the reference-returning End on a
concrete thread returns null and decodes nothing. -/
theorem JniMethodEndWithReference_decode_spec_witness :
    (tExc.pendingException.isSome = true →
      (none : ObjRef) = none ∧
        (outThread3 (JniMethodEndWithReferenceHandleResult (some 11) 5 cfg0
            tExc)).trace.countP isDecodeEvent =
          tExc.trace.countP isDecodeEvent) ∧
    (tExc.pendingException = none → (none : ObjRef) = tExc.decode (some 11)) :=
  JniMethodEndWithReference_decode_spec (some 11) 5 cfg0 tExc none cfg0
    (outThread3 (JniMethodEndWithReferenceHandleResult (some 11) 5 cfg0 tExc))
    rfl

/-- C10: for every synchronized-call Start, the monitor of the decoded lock
object is entered first, while the thread is still Runnable, before the
reference-scope push and before the Enter-native transition; the returned
cookie is exactly the one the plain normal-mode Start produces. -/
theorem JniMethodStartSynchronized_order (cfg : Config) (to_lock : JObj)
    (t : Thread) (hrun : t.state = .Runnable) :
    (JniMethodStartSynchronized cfg to_lock t).1 =
      (JniMethodStart cfg t).1 ∧
    ((JniMethodStartSynchronized cfg to_lock t).2.2).trace =
      t.trace ++ [.monitorEnter (t.decode to_lock) .Runnable, .pushScope,
        .enterNative] := by
  constructor
  · rfl
  · rw [JniMethodStartSynchronized_thread_trace, hrun]

/-- C10 witness: the synchronized Start protocol at a concrete Runnable
thread and lock handle. -/
theorem JniMethodStartSynchronized_order_witness :
    (JniMethodStartSynchronized cfg0 (some 3) t0).1 =
      (JniMethodStart cfg0 t0).1 ∧
    ((JniMethodStartSynchronized cfg0 (some 3) t0).2.2).trace =
      t0.trace ++ [.monitorEnter (t0.decode (some 3)) .Runnable, .pushScope,
        .enterNative] :=
  JniMethodStartSynchronized_order cfg0 (some 3) t0 rfl

/-- C4: for every calling mode, Start immediately followed by the matching
End with the cookie Start returned restores the thread's local-reference
scope state (segment state and saved cookie) and the thread's execution
state to exactly their values before Start.  Normal, fast and synchronized
calls use their Start/End entrypoint pairs; a critical call performs no
Start work at all and its generic End leaves the thread untouched. -/
theorem start_end_round_trip (cfg : Config) (to_lock : JObj) (t : Thread)
    (arch : Arch) (sv : Nat) (res : JValue) (rf : Nat)
    (hrun : t.state = .Runnable)
    (hpop : (t.env.checkJniEnabled && t.heldMonitors != 0) = false)
    (hmx : t.monitorExitRaises = none) :
    (∃ cfg2 t2,
      JniMethodEnd (JniMethodStart cfg t).1 (JniMethodStart cfg t).2.1
          ((JniMethodStart cfg t).2.2) = .ok (cfg2, t2) ∧
        t2.env = t.env ∧ t2.state = t.state) ∧
    (∃ t2,
      JniMethodFastEnd (JniMethodFastStart t).1 ((JniMethodFastStart t).2) =
          .ok t2 ∧
        t2.env = t.env ∧ t2.state = t.state) ∧
    (∃ t2,
      JniMethodEndSynchronized (JniMethodStartSynchronized cfg to_lock t).1
          to_lock ((JniMethodStartSynchronized cfg to_lock t).2.2) =
          .ok t2 ∧
        t2.env = t.env ∧ t2.state = t.state ∧
        t2.pendingException = t.pendingException ∧
        t2.heldMonitors = t.heldMonitors) ∧
    (∃ v, GenericJniMethodEnd arch cfg t sv res rf mCritJ =
      .ok (v, cfg, t)) := by
  refine ⟨?_, ?_, ?_, ?_⟩
  · unfold JniMethodEnd
    simp only []
    cases hp : PopLocalReferences (JniMethodStart cfg t).1
        (GoToRunnable ((JniMethodStart cfg t).2.2)) with
    | error e =>
      have hg := PopLocalReferences_error_guard _ _ _ hp
      simp only [GoToRunnable_env, GoToRunnable_heldMonitors,
        JniMethodStart_thread_env, JniMethodStart_thread_heldMonitors] at hg
      rw [hpop] at hg
      exact absurd hg (by simp)
    | ok tp =>
      obtain ⟨_, hst, _⟩ := PopLocalReferences_ok _ _ _ hp
      have henv := PopLocalReferences_ok_env _ _ _ hp
      simp only [GoToRunnable_env, JniMethodStart_thread_env,
        JniMethodStart_cookie] at henv
      refine ⟨_, tp, rfl, ?_, ?_⟩
      · rw [henv]
      · rw [hst, GoToRunnable_state, hrun]
  · unfold JniMethodFastEnd
    cases hp : PopLocalReferences (JniMethodFastStart t).1
        (GoToRunnableFast ((JniMethodFastStart t).2)) with
    | error e =>
      have hg := PopLocalReferences_error_guard _ _ _ hp
      simp only [GoToRunnableFast_env, GoToRunnableFast_heldMonitors,
        JniMethodFastStart_thread_env,
        JniMethodFastStart_thread_heldMonitors] at hg
      rw [hpop] at hg
      exact absurd hg (by simp)
    | ok tp =>
      obtain ⟨_, hst, _⟩ := PopLocalReferences_ok _ _ _ hp
      have henv := PopLocalReferences_ok_env _ _ _ hp
      simp only [GoToRunnableFast_env, JniMethodFastStart_thread_env,
        JniMethodFastStart_cookie] at henv
      refine ⟨tp, rfl, ?_, ?_⟩
      · rw [henv]
      · rw [hst, GoToRunnableFast_state, JniMethodFastStart_thread_state]
  · unfold JniMethodEndSynchronized
    cases hu : UnlockJniSynchronizedMethod to_lock
        (GoToRunnable ((JniMethodStartSynchronized cfg to_lock t).2.2)) with
    | error e =>
      obtain ⟨f, te⟩ := e
      obtain ⟨e2, hrx, _⟩ := UnlockJniSynchronizedMethod_error _ _ _ _ hu
      simp only [GoToRunnable_monitorExitRaises,
        JniMethodStartSynchronized_thread_monitorExitRaises] at hrx
      rw [hmx] at hrx
      exact absurd hrx (by simp)
    | ok tu =>
      obtain ⟨_, _, hust, hupe, huhm, _, huenv, _⟩ :=
        UnlockJniSynchronizedMethod_ok _ _ _ hu
      simp only []
      cases hp : PopLocalReferences
          (JniMethodStartSynchronized cfg to_lock t).1 tu with
      | error e =>
        have hg := PopLocalReferences_error_guard _ _ _ hp
        rw [huenv, huhm] at hg
        simp only [GoToRunnable_env, GoToRunnable_heldMonitors,
          JniMethodStartSynchronized_thread_env,
          JniMethodStartSynchronized_thread_heldMonitors,
          Nat.add_sub_cancel] at hg
        rw [hpop] at hg
        exact absurd hg (by simp)
      | ok tp =>
        obtain ⟨_, hst, hpe, hhm, _⟩ := PopLocalReferences_ok _ _ _ hp
        have henv := PopLocalReferences_ok_env _ _ _ hp
        rw [huenv] at henv
        simp only [GoToRunnable_env, JniMethodStartSynchronized_thread_env,
          JniMethodStartSynchronized_cookie] at henv
        refine ⟨tp, rfl, ?_, ?_, ?_, ?_⟩
        · rw [henv]
        · rw [hst, hust, GoToRunnable_state, hrun]
        · rw [hpe, hupe, GoToRunnable_pendingException,
            JniMethodStartSynchronized_thread_pendingException]
        · rw [hhm, huhm, GoToRunnable_heldMonitors,
            JniMethodStartSynchronized_thread_heldMonitors,
            Nat.add_sub_cancel]
  · exact ⟨toU64 (sextI 64 res.j), rfl⟩

/-- C4 witness: the round trip at a concrete Runnable thread with CheckJNI
off and a clean monitor exit. -/
theorem start_end_round_trip_witness :
    (∃ cfg2 t2,
      JniMethodEnd (JniMethodStart cfg0 t0).1 (JniMethodStart cfg0 t0).2.1
          ((JniMethodStart cfg0 t0).2.2) = .ok (cfg2, t2) ∧
        t2.env = t0.env ∧ t2.state = t0.state) ∧
    (∃ t2,
      JniMethodFastEnd (JniMethodFastStart t0).1
          ((JniMethodFastStart t0).2) = .ok t2 ∧
        t2.env = t0.env ∧ t2.state = t0.state) ∧
    (∃ t2,
      JniMethodEndSynchronized
          (JniMethodStartSynchronized cfg0 (some 3) t0).1 (some 3)
          ((JniMethodStartSynchronized cfg0 (some 3) t0).2.2) = .ok t2 ∧
        t2.env = t0.env ∧ t2.state = t0.state ∧
        t2.pendingException = t0.pendingException ∧
        t2.heldMonitors = t0.heldMonitors) ∧
    (∃ v, GenericJniMethodEnd arch0 cfg0 t0 4 jv0 0 mCritJ =
      .ok (v, cfg0, t0)) :=
  start_end_round_trip cfg0 (some 3) t0 arch0 4 jv0 0 rfl rfl rfl

/-- C6: for every 64-bit raw floating payload handled by the epilogue
dispatcher with return-type tag F: on the reinterpreting architecture (x86)
the result is the payload reinterpreted as a 64-bit float, narrowed to a
32-bit float, bit-cast to 32 bits; on every other architecture the raw
payload passes through unchanged, so the 32-bit result is the raw 32-bit
payload. -/
theorem GenericJniMethodEnd_float_narrowing (arch : Arch) (cfg : Config)
    (t : Thread) (sv : Nat) (res : JValue) (rf : Nat) (m : ArtMethod)
    (v : Nat) (cfg1 : Config) (t1 : Thread)
    (hsh : m.shorty0 = 'F')
    (h : GenericJniMethodEnd arch cfg t sv res rf m = .ok (v, cfg1, t1)) :
    (arch.isX86 = true →
      v = arch.narrowDoubleBitsToFloatBits rf % 2 ^ 32 ∧ v < 2 ^ 32) ∧
    (arch.isX86 = false → v = rf ∧ v % 2 ^ 32 = rf % 2 ^ 32) := by
  unfold GenericJniMethodEnd at h
  simp only [] at h
  rw [hsh] at h
  simp only [show (('F' : Char) = 'L') = False by decide, if_false] at h
  repeat' split at h
  all_goals
    first
    | exact Except.noConfusion h
    | (simp only [Except.ok.injEq, Prod.mk.injEq] at h
       obtain ⟨hv, -, -⟩ := h
       subst hv
       constructor <;> intro ha <;>
         first
         | exact ⟨rfl, Nat.mod_lt _ (by norm_num)⟩
         | exact ⟨rfl, rfl⟩
         | simp_all)

/-- C6 witness: a fast float-returning method on x86 with payload 10
narrows through the architecture's conversion; `arch1` maps 10 to 13. -/
theorem GenericJniMethodEnd_float_narrowing_witness :
    (arch1.isX86 = true →
      (13 : Nat) = arch1.narrowDoubleBitsToFloatBits 10 % 2 ^ 32 ∧
        (13 : Nat) < 2 ^ 32) ∧
    (arch1.isX86 = false →
      (13 : Nat) = 10 ∧ (13 : Nat) % 2 ^ 32 = 10 % 2 ^ 32) :=
  GenericJniMethodEnd_float_narrowing arch1 cfg0 t0 0 jv0 10 mFastF 13 cfg0
    (outThreadG (GenericJniMethodEnd arch1 cfg0 t0 0 jv0 10 mFastF)) rfl rfl

/-- C7: for every fast or critical call the thread never leaves Runnable
between Start and End (the fast Start performs no transition, and neither
End does), and the fast-path exit performs the cooperative suspend check
exactly once, and only when a thread-local suspend flag is raised; the
critical End performs no suspend check at all. -/
theorem fast_critical_stay_runnable (t u : Thread) (arch : Arch)
    (cfg : Config) (sv : Nat) (res : JValue) (rf : Nat) (m : ArtMethod)
    (hrun : u.state = .Runnable)
    (hcrit : m.isCriticalNative = true) (hfast : m.isFastNative = false)
    (hsync : m.isSynchronized = false) :
    (((JniMethodFastStart t).2).state = t.state ∧
      ((JniMethodFastStart t).2).trace.countP isTransitionEvent =
        t.trace.countP isTransitionEvent) ∧
    ((outThread1 (JniMethodFastEnd sv u)).state = .Runnable ∧
      (outThread1 (JniMethodFastEnd sv u)).trace.countP isTransitionEvent =
        u.trace.countP isTransitionEvent ∧
      (outThread1 (JniMethodFastEnd sv u)).trace.countP isSuspendEvent =
        u.trace.countP isSuspendEvent +
          (if u.suspendFlags then 1 else 0)) ∧
    ((outThreadG (GenericJniMethodEnd arch cfg u sv res rf m)).state =
        .Runnable ∧
      (outThreadG (GenericJniMethodEnd arch cfg u sv res rf m)).trace.countP
          isTransitionEvent = u.trace.countP isTransitionEvent ∧
      (outThreadG (GenericJniMethodEnd arch cfg u sv res rf m)).trace.countP
          isSuspendEvent = u.trace.countP isSuspendEvent) := by
  refine ⟨⟨rfl, ?_⟩, ?_, ?_⟩
  · rw [JniMethodFastStart_thread_trace]
    simp [List.countP_append, List.countP_cons, isTransitionEvent]
  · unfold JniMethodFastEnd
    cases hp : PopLocalReferences sv (GoToRunnableFast u) with
    | error e =>
      obtain ⟨f, te⟩ := e
      obtain ⟨-, hte⟩ := PopLocalReferences_error _ _ _ _ hp
      subst hte
      refine ⟨by simp [outThread1, hrun], ?_, ?_⟩ <;>
        · show (GoToRunnableFast u).trace.countP _ = _
          rw [GoToRunnableFast_trace]
          cases hsf : u.suspendFlags <;>
            simp [hsf, List.countP_append, List.countP_cons,
              isTransitionEvent, isSuspendEvent]
    | ok tp =>
      obtain ⟨htr, hst, -⟩ := PopLocalReferences_ok _ _ _ hp
      refine ⟨?_, ?_, ?_⟩
      · show tp.state = _
        rw [hst, GoToRunnableFast_state, hrun]
      all_goals
        · show tp.trace.countP _ = _
          rw [htr, GoToRunnableFast_trace]
          cases hsf : u.suspendFlags <;>
            simp [hsf, List.countP_append, List.countP_cons,
              isTransitionEvent, isSuspendEvent]
  · unfold GenericJniMethodEnd
    simp only [hcrit, hfast, hsync, Bool.not_true, Bool.not_false,
      Bool.false_and, Bool.false_eq_true, if_false]
    by_cases hL : m.shorty0 = 'L'
    · simp only [hL, if_true]
      cases hr : JniMethodEndWithReferenceHandleResult res.l sv cfg u with
      | error e =>
        obtain ⟨f, te⟩ := e
        obtain ⟨htr, hst⟩ :=
          JniMethodEndWithReferenceHandleResult_error _ _ _ _ _ _ hr
        refine ⟨?_, ?_, ?_⟩
        · show te.state = _
          rw [hst, hrun]
        all_goals
          · show te.trace.countP _ = _
            rw [htr]
            cases hb : u.pendingException.isSome <;>
              simp [hb, List.countP_append, List.countP_cons,
                isTransitionEvent, isSuspendEvent]
      | ok x =>
        obtain ⟨o, cfg1, t3⟩ := x
        obtain ⟨-, htr, hst, -⟩ :=
          JniMethodEndWithReferenceHandleResult_ok _ _ _ _ _ _ _ hr
        refine ⟨?_, ?_, ?_⟩
        · show t3.state = _
          rw [hst, hrun]
        all_goals
          · show t3.trace.countP _ = _
            rw [htr]
            cases hb : u.pendingException.isSome <;>
              cases hc : u.env.checkJniEnabled <;>
                simp [hb, hc, List.countP_append, List.countP_cons,
                  isTransitionEvent, isSuspendEvent]
    · simp only [hL, if_false]
      split <;> cases harch : arch.isX86 <;>
        simp [outThreadG, hrun, harch]

/-- C7 witness: the invariance at concrete threads, one with the suspend
flag raised, for a critical long-returning method. -/
theorem fast_critical_stay_runnable_witness :
    (((JniMethodFastStart t0).2).state = t0.state ∧
      ((JniMethodFastStart t0).2).trace.countP isTransitionEvent =
        t0.trace.countP isTransitionEvent) ∧
    ((outThread1 (JniMethodFastEnd 4 tFlag)).state = .Runnable ∧
      (outThread1 (JniMethodFastEnd 4 tFlag)).trace.countP
          isTransitionEvent = tFlag.trace.countP isTransitionEvent ∧
      (outThread1 (JniMethodFastEnd 4 tFlag)).trace.countP isSuspendEvent =
        tFlag.trace.countP isSuspendEvent +
          (if tFlag.suspendFlags then 1 else 0)) ∧
    ((outThreadG (GenericJniMethodEnd arch0 cfg0 tFlag 4 jv0 0
        mCritJ)).state = .Runnable ∧
      (outThreadG (GenericJniMethodEnd arch0 cfg0 tFlag 4 jv0 0
          mCritJ)).trace.countP isTransitionEvent =
        tFlag.trace.countP isTransitionEvent ∧
      (outThreadG (GenericJniMethodEnd arch0 cfg0 tFlag 4 jv0 0
          mCritJ)).trace.countP isSuspendEvent =
        tFlag.trace.countP isSuspendEvent) :=
  fast_critical_stay_runnable t0 tFlag arch0 cfg0 4 jv0 0 mCritJ rfl rfl rfl
    rfl

theorem GenericJniMethodEnd_eq_step (arch : Arch) (cfg : Config)
    (t : Thread) (sv : Nat) (res : JValue) (rf : Nat) (m : ArtMethod) :
    GenericJniMethodEnd arch cfg t sv res rf m =
      match
        (if m.isSynchronized then
          UnlockJniSynchronizedMethod m.syncObject (modeThread cfg m t)
        else .ok (modeThread cfg m t)) with
      | .error e => .error e
      | .ok t2 => step4 arch cfg sv res rf m t2 := rfl

@[simp]
theorem modeThread_countP_pop (cfg : Config) (m : ArtMethod) (t : Thread) :
    (modeThread cfg m t).trace.countP isPopEvent =
      t.trace.countP isPopEvent := by
  unfold modeThread
  split
  · cases hsr : cfg.shouldReport <;>
      simp [hsr, List.countP_append, List.countP_cons, isPopEvent]
  · split
    · cases hsf : t.suspendFlags <;>
        simp [hsf, List.countP_append, List.countP_cons, isPopEvent]
    · rfl

theorem step4_pop_count (arch : Arch) (cfg : Config) (sv : Nat)
    (res : JValue) (rf : Nat) (m : ArtMethod) (t2 : Thread) (v : Nat)
    (cfg1 : Config) (t1 : Thread)
    (h : step4 arch cfg sv res rf m t2 = .ok (v, cfg1, t1)) :
    t1.trace.countP isPopEvent =
      t2.trace.countP isPopEvent +
        (if m.isCriticalNative && m.shorty0 != 'L' then 0 else 1) := by
  unfold step4 at h
  by_cases hL : m.shorty0 = 'L'
  · rw [hL, if_pos rfl] at h
    cases hr : JniMethodEndWithReferenceHandleResult res.l sv cfg t2 with
    | error e =>
      rw [hr] at h
      exact Except.noConfusion h
    | ok x =>
      obtain ⟨o, c1, t3⟩ := x
      rw [hr] at h
      simp only [Except.ok.injEq, Prod.mk.injEq] at h
      obtain ⟨-, -, ht⟩ := h
      subst ht
      obtain ⟨-, htr, -⟩ :=
        JniMethodEndWithReferenceHandleResult_ok _ _ _ _ _ _ _ hr
      rw [htr]
      cases hb : t2.pendingException.isSome <;>
        cases hcj : t2.env.checkJniEnabled <;>
          simp [hb, hcj, hL, List.countP_append, List.countP_cons,
            isPopEvent]
  · rw [if_neg hL] at h
    cases hcr : m.isCriticalNative with
    | false =>
      rw [hcr] at h
      simp only [Bool.not_false, if_true] at h
      cases hp : PopLocalReferences sv t2 with
      | error e =>
        rw [hp] at h
        exact Except.noConfusion h
      | ok t3 =>
        rw [hp] at h
        simp only [] at h
        obtain ⟨htr, -⟩ := PopLocalReferences_ok _ _ _ hp
        repeat' split at h
        all_goals
          first
          | exact Except.noConfusion h
          | (simp only [Except.ok.injEq, Prod.mk.injEq] at h
             obtain ⟨-, -, ht⟩ := h
             subst ht
             rw [htr]
             simp [hcr, hL, List.countP_append, List.countP_cons,
               isPopEvent])
    | true =>
      rw [hcr] at h
      simp only [Bool.not_true, Bool.false_eq_true, if_false] at h
      repeat' split at h
      all_goals
        first
        | exact Except.noConfusion h
        | (simp only [Except.ok.injEq, Prod.mk.injEq] at h
           obtain ⟨-, -, ht⟩ := h
           subst ht
           simp [hcr, hL])

/-- C5 counterexample: a critical-native method with reference return tag
runs the epilogue dispatcher through the reference-handle path, which pops
the scope once — refuting that a critical End never pops for every tag. -/
theorem criticalNative_reference_pop_counterexample :
    mCritL.isCriticalNative = true ∧
    (outThreadG (GenericJniMethodEnd arch0 cfg0 t0 0 jv0 0
        mCritL)).trace.countP isPopEvent = 1 :=
  ⟨rfl, rfl⟩

/-- C5 (amended): for every completed generic End, the critical mode
performs no reference-scope pop when the return-type tag is not the
reference tag; for a critical call with the reference tag, and for every
non-critical call with any tag, the scope is popped exactly once. -/
theorem GenericJniMethodEnd_pop_count (arch : Arch) (cfg : Config)
    (t : Thread) (sv : Nat) (res : JValue) (rf : Nat) (m : ArtMethod)
    (v : Nat) (cfg1 : Config) (t1 : Thread)
    (h : GenericJniMethodEnd arch cfg t sv res rf m = .ok (v, cfg1, t1)) :
    t1.trace.countP isPopEvent =
      t.trace.countP isPopEvent +
        (if m.isCriticalNative && m.shorty0 != 'L' then 0 else 1) := by
  rw [GenericJniMethodEnd_eq_step] at h
  cases hsy : m.isSynchronized with
  | false =>
    rw [hsy] at h
    simp only [Bool.false_eq_true, if_false] at h
    have hc := step4_pop_count _ _ _ _ _ _ _ _ _ _ h
    rw [modeThread_countP_pop] at hc
    exact hc
  | true =>
    rw [hsy] at h
    simp only [if_true] at h
    cases hu : UnlockJniSynchronizedMethod m.syncObject
        (modeThread cfg m t) with
    | error e =>
      rw [hu] at h
      exact Except.noConfusion h
    | ok t2 =>
      rw [hu] at h
      obtain ⟨-, hutr, -⟩ := UnlockJniSynchronizedMethod_ok _ _ _ hu
      have hc := step4_pop_count _ _ _ _ _ _ _ _ _ _ h
      rw [hutr] at hc
      simp only [List.countP_append, List.countP_cons, List.countP_nil,
        modeThread_countP_pop] at hc
      simpa [isPopEvent] using hc

/-- C5 witness for the amended claim: a completed normal-mode void End
pops the scope exactly once. -/
theorem GenericJniMethodEnd_pop_count_witness :
    (outThreadG (GenericJniMethodEnd arch0 cfg0 t0 4 jv0 0
        mNormV)).trace.countP isPopEvent =
      t0.trace.countP isPopEvent +
        (if mNormV.isCriticalNative && mNormV.shorty0 != 'L' then 0
          else 1) :=
  GenericJniMethodEnd_pop_count arch0 cfg0 t0 4 jv0 0 mNormV 0 cfg0
    (outThreadG (GenericJniMethodEnd arch0 cfg0 t0 4 jv0 0 mNormV)) rfl

@[simp]
theorem modeThread_decode (cfg : Config) (m : ArtMethod) (t : Thread) :
    (modeThread cfg m t).decode = t.decode := by
  unfold modeThread
  split
  · simp
  · split <;> simp

theorem modeThread_filter_isStep (cfg : Config) (m : ArtMethod)
    (t : Thread) :
    ((modeThread cfg m t).trace).filter isStepEvent =
      t.trace.filter isStepEvent ++
        (if !m.isCriticalNative && !m.isFastNative then
          (if cfg.shouldReport then [Event.paletteNotifyEnd] else []) ++
            [Event.exitNative]
        else if m.isFastNative then
          (if t.suspendFlags then [Event.suspendCheck] else [])
        else []) := by
  unfold modeThread
  split
  · rename_i hn
    cases hsr : cfg.shouldReport <;>
      simp [hn, hsr, List.filter_append, isStepEvent]
  · rename_i hn
    split
    · rename_i hf
      cases hsf : t.suspendFlags <;>
        simp [hn, hf, hsf, List.filter_append, isStepEvent]
    · rename_i hf
      simp [hn, hf]

theorem step4_filter_isStep (arch : Arch) (cfg : Config) (sv : Nat)
    (res : JValue) (rf : Nat) (m : ArtMethod) (t2 : Thread) :
    ((outThreadG (step4 arch cfg sv res rf m t2)).trace).filter
        isStepEvent =
      t2.trace.filter isStepEvent := by
  unfold step4
  by_cases hL : m.shorty0 = 'L'
  · rw [hL, if_pos rfl]
    cases hr : JniMethodEndWithReferenceHandleResult res.l sv cfg t2 with
    | error e =>
      obtain ⟨f, te⟩ := e
      obtain ⟨htr, -⟩ :=
        JniMethodEndWithReferenceHandleResult_error _ _ _ _ _ _ hr
      show List.filter isStepEvent te.trace =
        List.filter isStepEvent t2.trace
      rw [htr]
      cases hb : t2.pendingException.isSome <;>
        simp [hb, List.filter_append, isStepEvent]
    | ok x =>
      obtain ⟨o, c1, t3⟩ := x
      obtain ⟨-, htr, -⟩ :=
        JniMethodEndWithReferenceHandleResult_ok _ _ _ _ _ _ _ hr
      show List.filter isStepEvent t3.trace =
        List.filter isStepEvent t2.trace
      rw [htr]
      cases hb : t2.pendingException.isSome <;>
        cases hcj : t2.env.checkJniEnabled <;>
          simp [hb, hcj, List.filter_append, isStepEvent]
  · rw [if_neg hL]
    cases hcr : m.isCriticalNative with
    | false =>
      simp only [Bool.not_false, if_true]
      cases hp : PopLocalReferences sv t2 with
      | error e =>
        obtain ⟨f, te⟩ := e
        obtain ⟨-, hte⟩ := PopLocalReferences_error _ _ _ _ hp
        show List.filter isStepEvent te.trace =
          List.filter isStepEvent t2.trace
        rw [hte]
      | ok t3 =>
        obtain ⟨htr, -⟩ := PopLocalReferences_ok _ _ _ hp
        simp only []
        split <;> (cases harch : arch.isX86 <;>
          simp [outThreadG, harch, htr, List.filter_append, isStepEvent])
    | true =>
      simp only [Bool.not_true, Bool.false_eq_true, if_false]
      split <;> (cases harch : arch.isX86 <;> simp [outThreadG, harch])

/-- C1: for every call to the epilogue dispatcher, projected onto the
notification / transition / suspend-check / monitor-release events, the
trace extends in exactly this order: for normal natives the palette end
notification (when the palette asks for reports) then Exit-native; for
fast natives only the fast-path suspend check (when a flag was raised);
for critical natives nothing; and only after that, if the method is
synchronized, the monitor release.  No later step emits such events. -/
theorem GenericJniMethodEnd_step_order (arch : Arch) (cfg : Config)
    (t : Thread) (sv : Nat) (res : JValue) (rf : Nat) (m : ArtMethod) :
    ((outThreadG (GenericJniMethodEnd arch cfg t sv res rf m)).trace).filter
        isStepEvent =
      t.trace.filter isStepEvent ++
        (if !m.isCriticalNative && !m.isFastNative then
          (if cfg.shouldReport then [Event.paletteNotifyEnd] else []) ++
            [Event.exitNative]
        else if m.isFastNative then
          (if t.suspendFlags then [Event.suspendCheck] else [])
        else []) ++
        (if m.isSynchronized then
          [Event.monitorExit (t.decode m.syncObject)]
        else []) := by
  rw [GenericJniMethodEnd_eq_step]
  cases hsy : m.isSynchronized with
  | false =>
    simp only [Bool.false_eq_true, if_false, List.append_nil]
    show ((outThreadG (step4 arch cfg sv res rf m
      (modeThread cfg m t))).trace).filter isStepEvent = _
    rw [step4_filter_isStep, modeThread_filter_isStep]
  | true =>
    simp only [if_true]
    cases hu : UnlockJniSynchronizedMethod m.syncObject
        (modeThread cfg m t) with
    | error e =>
      obtain ⟨f, te⟩ := e
      obtain ⟨e2, -, -, htr, -⟩ :=
        UnlockJniSynchronizedMethod_error _ _ _ _ hu
      show List.filter isStepEvent te.trace = _
      rw [htr, modeThread_decode]
      simp [List.filter_append, isStepEvent, modeThread_filter_isStep,
        List.append_assoc]
    | ok t2 =>
      obtain ⟨-, hutr, -⟩ := UnlockJniSynchronizedMethod_ok _ _ _ hu
      show ((outThreadG (step4 arch cfg sv res rf m t2)).trace).filter
        isStepEvent = _
      rw [step4_filter_isStep, hutr, modeThread_decode]
      simp [List.filter_append, isStepEvent, modeThread_filter_isStep,
        List.append_assoc]

theorem JniMethodEnd_cfg_strip (sv : Nat) (cfg cfg' : Config)
    (t : Thread) :
    stripCT (JniMethodEnd sv cfg' t) = stripCT (JniMethodEnd sv cfg t) := by
  unfold JniMethodEnd
  simp only []
  cases hp : PopLocalReferences sv (GoToRunnable t) <;> simp [stripCT]

theorem EndRef_cfg_strip (r : JObj) (sv : Nat) (cfg cfg' : Config)
    (t : Thread) :
    stripRef (JniMethodEndWithReferenceHandleResult r sv cfg' t) =
      stripRef (JniMethodEndWithReferenceHandleResult r sv cfg t) := by
  unfold JniMethodEndWithReferenceHandleResult
  simp only []
  cases hb : t.pendingException.isSome <;>
    simp only [hb, Bool.false_eq_true, if_false, if_true]
  · cases hp : PopLocalReferences sv (t.emit (.decodeResult r)) <;>
      simp [stripRef]
  · cases hp : PopLocalReferences sv t <;> simp [stripRef]

theorem modeThread_cfg (cfg cfg' : Config) (m : ArtMethod) (t : Thread)
    (hsr : cfg'.shouldReport = cfg.shouldReport) :
    modeThread cfg' m t = modeThread cfg m t := by
  unfold modeThread MonitorJniNotifyEnd
  rw [hsr]

theorem step4_cfg_strip (arch : Arch) (sv : Nat) (res : JValue) (rf : Nat)
    (m : ArtMethod) (cfg cfg' : Config) (t2 : Thread) :
    stripGen (step4 arch cfg' sv res rf m t2) =
      stripGen (step4 arch cfg sv res rf m t2) := by
  unfold step4
  by_cases hL : m.shorty0 = 'L'
  · rw [hL, if_pos rfl, if_pos rfl]
    have hstr := EndRef_cfg_strip res.l sv cfg cfg' t2
    cases hr' : JniMethodEndWithReferenceHandleResult res.l sv cfg' t2 with
    | error e' =>
      cases hr : JniMethodEndWithReferenceHandleResult res.l sv cfg t2 with
      | error e =>
        rw [hr, hr'] at hstr
        simp only [stripRef, Except.error.injEq] at hstr
        simp [stripGen, hstr]
      | ok x =>
        obtain ⟨o, c1, t3⟩ := x
        rw [hr, hr'] at hstr
        exact absurd hstr (by simp [stripRef])
    | ok x' =>
      obtain ⟨o', c1', t3'⟩ := x'
      cases hr : JniMethodEndWithReferenceHandleResult res.l sv cfg t2 with
      | error e =>
        rw [hr, hr'] at hstr
        exact absurd hstr (by simp [stripRef])
      | ok x =>
        obtain ⟨o, c1, t3⟩ := x
        rw [hr, hr'] at hstr
        simp only [stripRef, Except.ok.injEq, Prod.mk.injEq] at hstr
        obtain ⟨ho, ht⟩ := hstr
        simp [stripGen, ho, ht]
  · rw [if_neg hL, if_neg hL]
    cases hcr : m.isCriticalNative with
    | false =>
      simp only [Bool.not_false, if_true]
      cases hp : PopLocalReferences sv t2 with
      | error e => simp [stripGen]
      | ok t3 =>
        simp only []
        split <;> (cases harch : arch.isX86 <;> simp [stripGen, harch])
    | true =>
      simp only [Bool.not_true, Bool.false_eq_true, if_false]
      split <;> (cases harch : arch.isX86 <;> simp [stripGen, harch])

theorem GenericJniMethodEnd_cfg_strip (arch : Arch) (cfg cfg' : Config)
    (t : Thread) (sv : Nat) (res : JValue) (rf : Nat) (m : ArtMethod)
    (hsr : cfg'.shouldReport = cfg.shouldReport) :
    stripGen (GenericJniMethodEnd arch cfg' t sv res rf m) =
      stripGen (GenericJniMethodEnd arch cfg t sv res rf m) := by
  rw [GenericJniMethodEnd_eq_step, GenericJniMethodEnd_eq_step,
    modeThread_cfg cfg cfg' m t hsr]
  cases hsy : m.isSynchronized with
  | false =>
    simp only [Bool.false_eq_true, if_false]
    exact step4_cfg_strip arch sv res rf m cfg cfg' _
  | true =>
    simp only [if_true]
    cases hu : UnlockJniSynchronizedMethod m.syncObject
        (modeThread cfg m t) with
    | error e => simp [stripGen]
    | ok t2 =>
      simp only []
      exact step4_cfg_strip arch sv res rf m cfg cfg' t2

/-- C9: for every input, the cookie returned by Start, the value returned
by each End, and the thread after each operation are identical whether the
runtime tracing configuration (isJNIMethodPrint / method-name filter) is
enabled or disabled — the logging instrumentation mutates only the
configuration, never a transition, locking, or result-decoding outcome. -/
theorem tracing_noninterference (cfg : Config) (b : Bool) (s : String)
    (t : Thread) (r : JObj) (sv : Nat) (arch : Arch) (res : JValue)
    (rf : Nat) (m : ArtMethod) :
    ((JniMethodStart { cfg with isJNIMethodPrint := b, jniFuncName := s }
        t).1 = (JniMethodStart cfg t).1 ∧
      (JniMethodStart { cfg with isJNIMethodPrint := b, jniFuncName := s }
        t).2.2 = (JniMethodStart cfg t).2.2) ∧
    stripCT (JniMethodEnd sv
        { cfg with isJNIMethodPrint := b, jniFuncName := s } t) =
      stripCT (JniMethodEnd sv cfg t) ∧
    stripRef (JniMethodEndWithReferenceHandleResult r sv
        { cfg with isJNIMethodPrint := b, jniFuncName := s } t) =
      stripRef (JniMethodEndWithReferenceHandleResult r sv cfg t) ∧
    stripGen (GenericJniMethodEnd arch
        { cfg with isJNIMethodPrint := b, jniFuncName := s } t sv res rf
        m) =
      stripGen (GenericJniMethodEnd arch cfg t sv res rf m) :=
  ⟨⟨rfl, rfl⟩, JniMethodEnd_cfg_strip sv cfg _ t,
    EndRef_cfg_strip r sv cfg _ t,
    GenericJniMethodEnd_cfg_strip arch cfg _ t sv res rf m rfl⟩

end RomJni
